import Mathlib

/-!
Verification of the PetPal booking frontend.

Shallow embedding of:
* the calendar-grid generator and date-disabled predicate (Schedule page),
* the booking-record normalizer and image-URL resolver (`services/strapi.js`),
* the upcoming/past tab filters and status badge (MyBookings page),
* the booking creation payload (`onBook`),
* the existence-check and cancellation flows (`checkBookingExists`, `cancelBooking`).

JavaScript `Date` values are modelled date-only (every date in the relevant
code is constructed at local midnight) as civil triples (year, month, day)
with JS conventions: `month` is 0-based, `day` is 1-based.  `new Date(y, m, d)`
normalization is modelled by normalizing the month with floor
division/euclidean remainder (as the ECMAScript `MakeDay` operation does) and
then walking `d - 1` days from the first of that month.  Chronological
comparison of `Date` values (JS compares epoch milliseconds) is modelled by a
serial day number.

Network calls are modelled by passing each `fetch`'s outcome (network error or
an HTTP response with status and parsed body) as an explicit argument, in the
order the code issues the requests.
-/

namespace PetPal

/-! ### JS truthiness helpers -/

/-- Truthiness of an optional JS string: `undefined`/`null` and `''` are falsy. -/
def strTruthy : Option String → Bool
  | none => false
  | some s => !(s == "")

/-- JS `a || b` on two optional strings: yields `b` whenever `a` is falsy. -/
def jsStrOr (a b : Option String) : Option String :=
  if strTruthy a then a else b

/-- JS `a || d` where `d` is a non-empty string literal default. -/
def jsStrOrD (a : Option String) (d : String) : String :=
  match a with
  | some s => if s = "" then d else s
  | none => d

/-- Does `needle` occur at the head of the haystack? -/
def charsHeadMatch : List Char → List Char → Bool
  | [], _ => true
  | _ :: _, [] => false
  | a :: as, b :: bs => a == b && charsHeadMatch as bs

/-- Does `needle` occur anywhere in the haystack? -/
def charsInfix (needle : List Char) : List Char → Bool
  | [] => charsHeadMatch needle []
  | b :: bs => charsHeadMatch needle (b :: bs) || charsInfix needle bs

/-- JS `str.includes(sub)`. -/
def includes (s sub : String) : Bool :=
  charsInfix sub.toList s.toList

/-- JS `str.startsWith(pre)`. -/
def jsStartsWith (s pre : String) : Bool :=
  charsHeadMatch pre.toList s.toList

/-- Split a character list at every occurrence of `sep`. -/
def splitChar (sep : Char) : List Char → List (List Char)
  | [] => [[]]
  | c :: cs =>
    let r := splitChar sep cs
    if c == sep then [] :: r
    else
      match r with
      | h :: t => (c :: h) :: t
      | [] => [[c]]

/-- Parse a non-empty all-digit character list as a decimal number. -/
def digitsToNatAux : List Char → Nat → Option Nat
  | [], acc => some acc
  | c :: cs, acc =>
    if 48 ≤ c.toNat && c.toNat ≤ 57 then digitsToNatAux cs (acc * 10 + (c.toNat - 48))
    else none

/-- Decimal parse of a character list (`none` on empty or non-digits). -/
def parseNatDigits : List Char → Option Nat
  | [] => none
  | c :: cs => digitsToNatAux (c :: cs) 0

/-- A character JS `String.prototype.trim` strips. -/
def jsSpace (c : Char) : Bool :=
  c == ' ' || c == '\t' || c == '\n' || c == '\r'

/-- JS `str.trim()`. -/
def jsTrim (s : String) : String :=
  ⟨(((s.toList.dropWhile jsSpace).reverse.dropWhile jsSpace).reverse)⟩

/-- A Strapi identifier value: a document-style string id or a legacy numeric id. -/
inductive JsId where
  | docId (s : String)
  | numId (n : Nat)
deriving DecidableEq, Repr

/-- Truthiness of an optional id value (`''` and `0` are falsy in JS). -/
def idTruthy : Option JsId → Bool
  | none => false
  | some (.docId s) => !(s == "")
  | some (.numId n) => !(n == 0)

/-- JS `booking.documentId || booking.id` combining the two id fields. -/
def idOr (docId : Option String) (numId : Option Nat) : Option JsId :=
  if strTruthy docId then docId.map JsId.docId else numId.map JsId.numId

/-! ### Date model -/

/-- A civil date in JS conventions: 0-based `month`, 1-based `day`. -/
structure Date where
  year : Int
  month : Int
  day : Int
deriving DecidableEq, Repr

/-- Gregorian leap-year test (JS `%` and euclidean `%` agree on divisibility). -/
def isLeap (y : Int) : Bool :=
  (y % 4 == 0 && y % 100 != 0) || (y % 400 == 0)

/-- Number of days in month `m` (0-based) of year `y`. -/
def daysInMonth (y m : Int) : Int :=
  if m = 1 then (if isLeap y then 29 else 28)
  else if m = 3 ∨ m = 5 ∨ m = 8 ∨ m = 10 then 30
  else 31

/-- Days from January 1 to the first of month `m` (0-based), non-leap year. -/
def monthOffset (m : Int) : Int :=
  if m ≤ 0 then 0 else if m = 1 then 31 else if m = 2 then 59 else if m = 3 then 90
  else if m = 4 then 120 else if m = 5 then 151 else if m = 6 then 181
  else if m = 7 then 212 else if m = 8 then 243 else if m = 9 then 273
  else if m = 10 then 304 else 334

/-- Days from January 1 of year `y` to the first of month `m` of year `y`. -/
def daysBeforeMonth (y m : Int) : Int :=
  monthOffset m + (if 2 ≤ m ∧ isLeap y then 1 else 0)

/-- Number of leap years strictly before year `y`, counting from year 0. -/
def leapsBefore (y : Int) : Int :=
  (y + 3) / 4 - (y + 99) / 100 + (y + 399) / 400

/-- Serial day number (days since 0000-01-01); models the JS time value. -/
def toSerial (dt : Date) : Int :=
  365 * dt.year + leapsBefore dt.year + daysBeforeMonth dt.year dt.month + dt.day - 1

/-- JS `Date.prototype.getDay`: weekday, 0 = Sunday.  0000-01-01 is a Saturday. -/
def getDay (dt : Date) : Int :=
  (toSerial dt + 6) % 7

/-- JS `d1 < d2` on two midnight `Date`s: comparison of their time values. -/
def dateBefore (a b : Date) : Bool :=
  toSerial a < toSerial b

/-- Successor day of a normalized date. -/
def nextDay (dt : Date) : Date :=
  if dt.day < daysInMonth dt.year dt.month then ⟨dt.year, dt.month, dt.day + 1⟩
  else if dt.month < 11 then ⟨dt.year, dt.month + 1, 1⟩
  else ⟨dt.year + 1, 0, 1⟩

/-- Predecessor day of a normalized date. -/
def prevDay (dt : Date) : Date :=
  if 1 < dt.day then ⟨dt.year, dt.month, dt.day - 1⟩
  else if 0 < dt.month then ⟨dt.year, dt.month - 1, daysInMonth dt.year (dt.month - 1)⟩
  else ⟨dt.year - 1, 11, 31⟩

/-- Walk `n` days forward. -/
def addDaysNat (dt : Date) : Nat → Date
  | 0 => dt
  | n + 1 => nextDay (addDaysNat dt n)

/-- Walk `n` days backward. -/
def subDaysNat (dt : Date) : Nat → Date
  | 0 => dt
  | n + 1 => prevDay (subDaysNat dt n)

/-- Walk `k` days from `dt` (either direction). -/
def addDays (dt : Date) (k : Int) : Date :=
  if 0 ≤ k then addDaysNat dt k.toNat else subDaysNat dt (-k).toNat

/-- JS `new Date(y, m, d)` (date part): normalize the month into the year
with floor division, then offset `d - 1` days from the first of that month. -/
def mkDate (y m d : Int) : Date :=
  addDays ⟨y + m / 12, m % 12, 1⟩ (d - 1)

/-! ### Calendar generator (Schedule page) -/

/-- `sameMonth` from the Schedule page: same `getMonth()` and `getFullYear()`. -/
def sameMonth (d1 d2 : Date) : Bool :=
  d1.month == d2.month && d1.year == d2.year

/-- `generateCalendar(baseDate)`: left-pad with trailing days of the previous
month up to the weekday of day 1, emit every day of the month, then pad with
leading days of the next month up to 42 cells. -/
def generateCalendar (baseDate : Date) : List Date :=
  let start := mkDate baseDate.year baseDate.month 1
  let endD := mkDate baseDate.year (baseDate.month + 1) 0
  let startDay := getDay start
  let lead := (List.range startDay.toNat).map
    (fun i : Nat => mkDate start.year start.month ((i : Int) - startDay + 1))
  let mid := (List.range endD.day.toNat).map
    (fun d : Nat => mkDate baseDate.year baseDate.month ((d : Int) + 1))
  let part := lead ++ mid
  let trail := (List.range (42 - part.length)).map
    (fun i : Nat => mkDate baseDate.year (baseDate.month + 1) ((i : Int) + 1))
  part ++ trail

/-- `isDateDisabled(date)`: strictly before today's local midnight. -/
def isDateDisabled (todayMidnight date : Date) : Bool :=
  dateBefore date todayMidnight

/-- The Schedule page's per-cell disabled flag: `!isCurrent || isDateDisabled(d)`. -/
def cellDisabled (viewMonth todayMidnight d : Date) : Bool :=
  !(sameMonth d viewMonth) || isDateDisabled todayMidnight d

/-- The calendar cell's `onClick`: `!isDisabled && setSelectedDate(d)`. -/
def clickCell (viewMonth todayMidnight : Date) (selected : Option Date) (d : Date) :
    Option Date :=
  if cellDisabled viewMonth todayMidnight d then selected else some d

/-! ### Service and booking records -/

/-- A service record as carried in navigation state / populated responses. -/
structure Service where
  documentId : Option String
  id : Option Nat
  title : Option String
  duration : Option Nat
  price : Option Nat
deriving DecidableEq, Repr

/-- A raw booking record as returned by the remote store.  Instants are
modelled as absolute minute counts.  The record may also carry a generic
`status` attribute; the frontend never reads it. -/
structure RawBooking where
  documentId : Option String
  id : Option Nat
  userEmail : Option String
  userName : Option String
  user_name : Option String
  scheduleTime : Option Int
  bookingStatus : Option String
  status : Option String
  service : Option Service
deriving DecidableEq, Repr

/-- The canonical in-memory booking shape produced by `fetchBookingsForUser`. -/
structure NormalizedBooking where
  id : Option JsId
  documentId : Option String
  strapiId : Option Nat
  userEmail : Option String
  userName : Option String
  scheduleTime : Option Int
  date : Option Int
  bookingStatus : Option String
  status : Option String
  service : Option Service
deriving DecidableEq, Repr

/-- The per-record normalization inside `fetchBookingsForUser`. -/
def normalizeBooking (b : RawBooking) : NormalizedBooking where
  id := idOr b.documentId b.id
  documentId := b.documentId
  strapiId := b.id
  userEmail := b.userEmail
  userName := jsStrOr b.userName b.user_name
  scheduleTime := b.scheduleTime
  date := b.scheduleTime
  bookingStatus := b.bookingStatus
  status := b.bookingStatus
  service := b.service

/-! ### MyBookings tab filters and status badge -/

/-- `booking.scheduleTime || booking.date` (0 is not a possible instant here,
so truthiness on numbers reduces to presence). -/
def bookingInstant (b : NormalizedBooking) : Option Int :=
  match b.scheduleTime with
  | some t => some t
  | none => b.date

/-- `dayjs(booking.scheduleTime || booking.date).isAfter(now)`; an absent
instant parses as the current moment, which is not after itself. -/
def instantIsAfterNow (b : NormalizedBooking) (now : Int) : Bool :=
  match bookingInstant b with
  | some t => now < t
  | none => false

/-- `dayjs(booking.scheduleTime || booking.date).isBefore(now)`. -/
def instantIsBeforeNow (b : NormalizedBooking) (now : Int) : Bool :=
  match bookingInstant b with
  | some t => t < now
  | none => false

/-- `booking.bookingStatus || booking.status || 'confirmed'` (tab filters). -/
def effStatus (b : NormalizedBooking) : String :=
  match jsStrOr b.bookingStatus b.status with
  | some s => if s = "" then "confirmed" else s
  | none => "confirmed"

/-- `booking.bookingStatus || booking.status || 'pending'` (`getStatusBadge`). -/
def badgeStatus (b : NormalizedBooking) : String :=
  match jsStrOr b.bookingStatus b.status with
  | some s => if s = "" then "pending" else s
  | none => "pending"

/-- The `upcomingBookings` filter. -/
def upcomingBookings (now : Int) (bookings : List NormalizedBooking) :
    List NormalizedBooking :=
  bookings.filter (fun b => instantIsAfterNow b now && !(effStatus b == "cancelled"))

/-- The `pastBookings` filter. -/
def pastBookings (now : Int) (bookings : List NormalizedBooking) :
    List NormalizedBooking :=
  bookings.filter (fun b => instantIsBeforeNow b now || effStatus b == "cancelled")

/-! ### Image URL resolution (`getImageUrl`) -/

/-- Nested `attributes` object holding a `url`. -/
structure ImgAttrs where
  url : Option String
deriving DecidableEq, Repr

/-- Nested `data` object holding `attributes`. -/
structure ImgDataObj where
  attributes : Option ImgAttrs
deriving DecidableEq, Repr

/-- An image object: possible direct `url`, `data.attributes.url`,
`attributes.url`. -/
structure ImgObj where
  url : Option String
  data : Option ImgDataObj
  attributes : Option ImgAttrs
deriving DecidableEq, Repr

/-- The possible JS values of the `imageData` argument. -/
inductive ImageData where
  | nullVal
  | strVal (s : String)
  | objVal (o : ImgObj)
deriving DecidableEq, Repr

/-- `imageData.data && imageData.data.attributes && imageData.data.attributes.url`. -/
def dataAttrUrl (o : ImgObj) : Option String :=
  match o.data with
  | some d =>
    match d.attributes with
    | some a => a.url
    | none => none
  | none => none

/-- `imageData.attributes && imageData.attributes.url`. -/
def attrUrl (o : ImgObj) : Option String :=
  match o.attributes with
  | some a => a.url
  | none => none

/-- The ordered resolution chain for an image object. -/
def objImageUrl (o : ImgObj) : Option String :=
  if strTruthy o.url then o.url
  else if strTruthy (dataAttrUrl o) then dataAttrUrl o
  else if strTruthy (attrUrl o) then attrUrl o
  else none

/-- The default Strapi base URL (`VITE_STRAPI_URL` unset). -/
def STRAPI_URL : String := "http://localhost:1337"

/-- The default placeholder passed for the `fallback` parameter. -/
def placeholderUrl : String := "https://via.placeholder.com/300x200?text=No+Image"

/-- `getImageUrl(imageData, fallback)` with the configured base URL `base`. -/
def getImageUrl (base : String) (imageData : ImageData) (fallback : String) : String :=
  match imageData with
  | .nullVal => fallback
  | .strVal s =>
    if s = "" then fallback
    else if jsStartsWith s "http" then s else base ++ s
  | .objVal o =>
    match objImageUrl o with
    | none => fallback
    | some u =>
      if u = "" then fallback
      else if jsStartsWith u "http" then u else base ++ u

/-! ### Booking creation (`onBook` / `createBooking`) -/

/-- The minimal payload `onBook` hands to `createBooking`. -/
structure BookingPayload where
  service : Option JsId
  userEmail : String
  scheduleTime : Int
  bookingStatus : String
deriving DecidableEq, Repr

/-- Parse one of the 12-hour clock labels (`"2:00 PM"`) to minutes of the day,
as dayjs parses the `YYYY-MM-DD h:mm A` strings `onBook` builds. -/
def slotToMinutes (t : String) : Option Int :=
  match splitChar ' ' t.toList with
  | [hm, ap] =>
    match splitChar ':' hm with
    | [hs, ms] =>
      match parseNatDigits hs, parseNatDigits ms with
      | some h, some m =>
        if ap == ['A', 'M'] then some ((h % 12) * 60 + m)
        else if ap == ['P', 'M'] then some (((h % 12) + 12) * 60 + m)
        else none
      | _, _ => none
    | _ => none
  | _ => none

/-- A local wall-clock datetime converted to an absolute minute count
(`dayjs(...).toISOString()`); `tz` is the zone's `getTimezoneOffset()`
in minutes (UTC = local + tz). -/
def localToAbsolute (d : Date) (minutesOfDay tz : Int) : Int :=
  1440 * toSerial d + minutesOfDay + tz

/-- `onBook`: the list of `createBooking` calls it performs.  `user` is the
signed-in user's email, `none` when signed out.  An invalid email or an
unparsable slot label aborts before any request is sent. -/
def onBook (selectedService : Service) (user : Option String)
    (selectedDate : Option Date) (selectedTime : Option String) (tz : Int) :
    List BookingPayload :=
  match selectedDate, selectedTime, user with
  | some d, some t, some email =>
    if email == "" || !(email.toList.contains '@') then []
    else
      match slotToMinutes t with
      | some mins =>
        [{ service := idOr selectedService.documentId selectedService.id,
           userEmail := jsTrim email,
           scheduleTime := localToAbsolute d mins tz,
           bookingStatus := "confirmed" }]
      | none => []
  | _, _, _ => []

/-! ### Remote-call outcomes (`checkBookingExists`, `cancelBooking`) -/

/-- Outcome of one `fetch`: the promise rejects with a network error, or an
HTTP response arrives with a status and a parsed body. -/
inductive Fetch (β : Type) where
  | netErr (msg : String)
  | resp (status : Nat) (body : β)
deriving DecidableEq, Repr

/-- `response.ok`: status in the 200–299 range. -/
def respOk (status : Nat) : Bool :=
  200 ≤ status && status < 300

/-- Result shape of `checkBookingExists`. -/
structure ExistenceResult where
  existsFlag : Bool
  booking : Option RawBooking
deriving DecidableEq, Repr

/-- `checkBookingExists(bookingIdentifier)` as a function of the two probe
outcomes.  Each phase sits in its own `try/catch` whose handler only logs, so
network errors fall through to the next phase; the outer handler that would
return `exists: true` is unreachable from `fetch` failures. -/
def checkBookingExists (r1 : Fetch (Option RawBooking)) (r2 : Fetch (List RawBooking)) :
    ExistenceResult :=
  -- Method 1: direct query
  let phase1 : Option RawBooking :=
    match r1 with
    | .netErr _ => none
    | .resp s ob => if respOk s then ob else none
  match phase1 with
  | some b => ⟨true, some b⟩
  | none =>
    -- Method 2: filter query by documentId
    match r2 with
    | .netErr _ => ⟨false, none⟩
    | .resp s bs =>
      if respOk s then
        match bs with
        | b :: _ => ⟨true, some b⟩
        | [] => ⟨false, none⟩
      else ⟨false, none⟩

/-- The distinct error values thrown inside `cancelBooking`.  `deleteFailed s`
and `putFailed s` stand for the messages `"DELETE failed: {s}"` and
`"PUT failed: {s}"`, whose variable part is the decimal status digits, so they
can never contain the phrases `'not found'` or `'already deleted'`. -/
inductive ErrMsg where
  | notFoundOnServer
  | alreadyDeleted
  | deleteFailed (status : Nat)
  | putFailed (status : Nat)
  | netMsg (msg : String)
deriving DecidableEq, Repr

/-- `error.message.includes('not found')`. -/
def msgHasNotFound : ErrMsg → Bool
  | .notFoundOnServer => true
  | .netMsg m => includes m "not found"
  | _ => false

/-- `error.message.includes('already deleted')`. -/
def msgHasAlreadyDeleted : ErrMsg → Bool
  | .alreadyDeleted => true
  | .netMsg m => includes m "already deleted"
  | _ => false

/-- Successful outcomes of `cancelBooking`. -/
inductive CancelResult where
  | deleted
  | statusUpdated
  | inferredSuccess
deriving DecidableEq, Repr

/-- The identifier-resolution phase of `cancelBooking` (strategies 1 and 2):
either an error escapes, or it yields the located record and
`actualId` (still possibly null).  Strategy 1 aborts hard on a 404; either
strategy rethrows any error whose message contains `'not found'`. -/
def resolveBookingId (ident : String) (r1 : Fetch (Option RawBooking))
    (r2 : Fetch (List RawBooking)) :
    Except ErrMsg (Option (RawBooking × Option JsId)) :=
  -- Strategy 1: direct query
  let step1 : Except ErrMsg (Option (RawBooking × Option JsId)) :=
    match r1 with
    | .netErr m =>
      if includes m "not found" then .error (.netMsg m) else .ok none
    | .resp s ob =>
      if respOk s then
        match ob with
        | some b => .ok (some (b, some (.docId ident)))
        | none => .ok none
      else if s = 404 then .error .notFoundOnServer
      else .ok none
  match step1 with
  | .error e => .error e
  | .ok (some r) => .ok (some r)
  | .ok none =>
    -- Strategy 2: filter query
    match r2 with
    | .netErr m =>
      if includes m "not found" then .error (.netMsg m) else .ok none
    | .resp s bs =>
      if respOk s then
        match bs with
        | b :: _ => .ok (some (b, idOr b.documentId b.id))
        | [] => .error .notFoundOnServer
      else .ok none

/-- Cancellation method 1 (`DELETE`); the response-body content-type handling
always reduces to a success value when the response is ok. -/
def deleteAttempt (del : Fetch Unit) : Except ErrMsg CancelResult :=
  match del with
  | .netErr m => .error (.netMsg m)
  | .resp s _ =>
    if respOk s then .ok .deleted
    else if s = 404 then .error .notFoundOnServer
    else .error (.deleteFailed s)

/-- Cancellation method 2 (`PUT` setting `bookingStatus: 'cancelled'`). -/
def putAttempt (put : Fetch Unit) : Except ErrMsg CancelResult :=
  match put with
  | .netErr m => .error (.netMsg m)
  | .resp s _ =>
    if respOk s then .ok .statusUpdated
    else if s = 404 then .error .alreadyDeleted
    else .error (.putFailed s)

/-- The `for` loop over `cancelMethods` with its catch-clause inference rules:
an `'already deleted'` failure is success; a `'not found'` failure of the
second method is success; a `'not found'` failure of the first method aborts;
otherwise the last error is rethrown. -/
def runCancelMethods (del put : Fetch Unit) : Except ErrMsg CancelResult :=
  match deleteAttempt del with
  | .ok r => .ok r
  | .error m1 =>
    if msgHasAlreadyDeleted m1 then .ok .inferredSuccess
    else if msgHasNotFound m1 then .error m1
    else
      match putAttempt put with
      | .ok r => .ok r
      | .error m2 =>
        if msgHasAlreadyDeleted m2 then .ok .inferredSuccess
        else if msgHasNotFound m2 then .ok .inferredSuccess
        else .error m2

/-- `cancelBooking(bookingIdentifier)` as a function of the four request
outcomes (direct query, filter query, DELETE, PUT), in issue order. -/
def cancelBooking (ident : String) (r1 : Fetch (Option RawBooking))
    (r2 : Fetch (List RawBooking)) (del put : Fetch Unit) :
    Except ErrMsg CancelResult :=
  match resolveBookingId ident r1 r2 with
  | .error e => .error e
  | .ok none => .error .notFoundOnServer
  | .ok (some (_, actualId)) =>
    if idTruthy actualId then runCancelMethods del put
    else .error .notFoundOnServer

/-! ### Sample records used by concrete witnesses -/

/-- A future confirmed booking (sample input for the C7 witness). -/
def c7FutureBooking : NormalizedBooking :=
  ⟨none, none, none, none, none, some 5, some 5, some "confirmed",
    some "confirmed", none⟩
/-- A future cancelled booking (sample input for the C7 witness). -/
def c7CancelledBooking : NormalizedBooking :=
  ⟨none, none, none, none, none, some 5, some 5, some "cancelled",
    some "cancelled", none⟩
/-- A confirmed booking scheduled exactly at the current instant (sample
input for the C10 witness). -/
def c10BoundaryBooking : NormalizedBooking :=
  ⟨none, none, none, none, none, some 0, some 0, some "confirmed",
    some "confirmed", none⟩
/-- A record located by the resolution phase (sample input for the C1 witness). -/
def c1ResolvedBooking : RawBooking :=
  ⟨some "bk1", some 2, none, none, none, none, none, none, none⟩

/-! ### Calendar lemmas -/

theorem daysInMonth_bounds (y m : Int) :
    28 ≤ daysInMonth y m ∧ daysInMonth y m ≤ 31 := by
  constructor <;> (unfold daysInMonth; split_ifs <;> omega)

theorem getDay_bounds (dt : Date) : 0 ≤ getDay dt ∧ getDay dt < 7 :=
  ⟨Int.emod_nonneg _ (by norm_num), Int.emod_lt_of_pos _ (by norm_num)⟩

theorem addDaysNat_in_month (y m : Int) (n : Nat)
    (h : (n : Int) + 1 ≤ daysInMonth y m) :
    addDaysNat ⟨y, m, 1⟩ n = ⟨y, m, (n : Int) + 1⟩ := by
  induction n with
  | zero => simp [addDaysNat]
  | succ k ih =>
    have hk : (k : Int) + 1 ≤ daysInMonth y m := by push_cast at h ⊢; omega
    rw [show addDaysNat ⟨y, m, 1⟩ (k + 1) = nextDay (addDaysNat ⟨y, m, 1⟩ k) from rfl,
      ih hk]
    unfold nextDay
    rw [if_pos (by show (k : Int) + 1 < daysInMonth y m; push_cast at h; omega)]
    have hc : ((k : Int) + 1) + 1 = ((k + 1 : Nat) : Int) + 1 := by push_cast; ring
    rw [hc]

theorem mkDate_in_month (y m k : Int) (hm0 : 0 ≤ m) (hm : m < 12)
    (hk1 : 1 ≤ k) (hk : k ≤ daysInMonth y m) :
    mkDate y m k = ⟨y, m, k⟩ := by
  unfold mkDate addDays
  rw [Int.ediv_eq_zero_of_lt hm0 hm, Int.emod_eq_of_lt hm0 hm, add_zero,
    if_pos (by omega : (0 : Int) ≤ k - 1),
    addDaysNat_in_month y m (k - 1).toNat (by rw [Int.toNat_of_nonneg (by omega)]; omega)]
  have hc : ((k - 1).toNat : Int) + 1 = k := by omega
  rw [hc]

theorem mkDate_month_end (y m : Int) (hm0 : 0 ≤ m) (hm : m < 12) :
    mkDate y (m + 1) 0 = ⟨y, m, daysInMonth y m⟩ := by
  unfold mkDate addDays
  rw [if_neg (by omega : ¬ (0 : Int) ≤ 0 - 1)]
  have h1 : (-(0 - 1) : Int).toNat = 1 := by omega
  rw [h1]
  rcases lt_or_eq_of_le (by omega : m + 1 ≤ 12) with h11 | h11
  · rw [@Int.ediv_eq_zero_of_lt (m + 1) 12 (by omega) (by omega),
      @Int.emod_eq_of_lt (m + 1) 12 (by omega) (by omega), add_zero]
    show prevDay (subDaysNat ⟨y, m + 1, 1⟩ 0) = _
    unfold subDaysNat prevDay
    rw [if_neg (by show ¬ (1 : Int) < 1; omega),
      if_pos (by show (0 : Int) < m + 1; omega)]
    have hc : m + 1 - 1 = m := by ring
    rw [hc]
  · have hm11 : m = 11 := by omega
    subst hm11
    norm_num
    show prevDay (subDaysNat ⟨y + 1, 0, 1⟩ 0) = _
    unfold subDaysNat prevDay
    rw [if_neg (by show ¬ (1 : Int) < 1; omega),
      if_neg (by show ¬ (0 : Int) < 0; omega)]
    have hdim : daysInMonth y 11 = 31 := by unfold daysInMonth; norm_num
    rw [hdim]
    have hc : y + 1 - 1 = y := by ring
    rw [hc]

theorem subDaysNat_prev_month (y m : Int) (hm1 : 1 ≤ m) (hm : m < 12) (j : Nat)
    (hj : (j : Int) ≤ daysInMonth y (m - 1) - 1) :
    subDaysNat ⟨y, m, 1⟩ (j + 1) = ⟨y, m - 1, daysInMonth y (m - 1) - j⟩ := by
  induction j with
  | zero =>
    show prevDay (subDaysNat ⟨y, m, 1⟩ 0) = _
    unfold subDaysNat prevDay
    rw [if_neg (by show ¬ (1 : Int) < 1; omega),
      if_pos (by show (0 : Int) < m; omega)]
    norm_num
  | succ k ih =>
    have hk : (k : Int) ≤ daysInMonth y (m - 1) - 1 := by push_cast at hj; omega
    show prevDay (subDaysNat ⟨y, m, 1⟩ (k + 1)) = _
    rw [ih hk]
    unfold prevDay
    have hlt : (1 : Int) < daysInMonth y (m - 1) - (k : Int) := by
      push_cast at hj
      omega
    rw [if_pos hlt]
    have hc : daysInMonth y (m - 1) - (k : Int) - 1 =
        daysInMonth y (m - 1) - ((k + 1 : Nat) : Int) := by push_cast; ring
    rw [hc]

theorem subDaysNat_prev_year (y : Int) (j : Nat) (hj : (j : Int) ≤ 30) :
    subDaysNat ⟨y, 0, 1⟩ (j + 1) = ⟨y - 1, 11, 31 - j⟩ := by
  induction j with
  | zero =>
    show prevDay (subDaysNat ⟨y, 0, 1⟩ 0) = _
    unfold subDaysNat prevDay
    rw [if_neg (by show ¬ (1 : Int) < 1; omega),
      if_neg (by show ¬ (0 : Int) < 0; omega)]
    norm_num
  | succ k ih =>
    have hk : (k : Int) ≤ 30 := by push_cast at hj; omega
    show prevDay (subDaysNat ⟨y, 0, 1⟩ (k + 1)) = _
    rw [ih hk]
    unfold prevDay
    rw [if_pos (by show (1 : Int) < 31 - (k : Int); push_cast at hj; omega)]
    have hc : 31 - (k : Int) - 1 = 31 - ((k + 1 : Nat) : Int) := by push_cast; ring
    rw [hc]

theorem mkDate_lead_not_same (base : Date) (j : Int)
    (hm0 : 0 ≤ base.month) (hm : base.month < 12) (hj1 : 1 ≤ j) (hj : j ≤ 6) :
    sameMonth (mkDate base.year base.month (1 - j)) base = false := by
  unfold mkDate addDays
  rw [Int.ediv_eq_zero_of_lt hm0 hm, Int.emod_eq_of_lt hm0 hm, add_zero,
    if_neg (by omega : ¬ (0 : Int) ≤ 1 - j - 1)]
  have hjn : (-(1 - j - 1)).toNat = (j - 1).toNat + 1 := by omega
  rw [hjn]
  have hdim := daysInMonth_bounds base.year (base.month - 1)
  rcases lt_or_eq_of_le hm0 with hpos | hzero
  · rw [subDaysNat_prev_month base.year base.month (by omega) hm (j - 1).toNat
      (by rw [Int.toNat_of_nonneg (by omega)]; omega)]
    simp only [sameMonth, Bool.and_eq_false_iff, beq_eq_false_iff_ne, ne_eq]
    left
    omega
  · rw [show (⟨base.year, base.month, 1⟩ : Date) = ⟨base.year, 0, 1⟩ by
      rw [← hzero]]
    rw [subDaysNat_prev_year base.year (j - 1).toNat
      (by rw [Int.toNat_of_nonneg (by omega)]; omega)]
    simp only [sameMonth, Bool.and_eq_false_iff, beq_eq_false_iff_ne, ne_eq]
    left
    omega

theorem mkDate_trail_not_same (base : Date) (k : Int)
    (hm0 : 0 ≤ base.month) (hm : base.month < 12) (hk1 : 1 ≤ k) (hk : k ≤ 28) :
    sameMonth (mkDate base.year (base.month + 1) k) base = false := by
  rcases lt_or_eq_of_le (by omega : base.month + 1 ≤ 12) with h11 | h11
  · have hdim1 := daysInMonth_bounds base.year (base.month + 1)
    have ha : (0 : Int) ≤ base.month + 1 := by omega
    have hb : base.month + 1 < 12 := by omega
    have hdd : k ≤ daysInMonth base.year (base.month + 1) := by omega
    rw [mkDate_in_month base.year (base.month + 1) k ha hb hk1 hdd]
    simp only [sameMonth, Bool.and_eq_false_iff, beq_eq_false_iff_ne, ne_eq]
    left
    omega
  · have hdim2 := daysInMonth_bounds (base.year + 1) 0
    unfold mkDate
    rw [show base.month + 1 = 12 by omega]
    norm_num
    unfold addDays
    have htn : (((k - 1).toNat : Int)) = k - 1 := Int.toNat_of_nonneg (by omega)
    have hdd : (((k - 1).toNat : Int)) + 1 ≤ daysInMonth (base.year + 1) 0 := by
      rw [htn]
      omega
    rw [if_pos (by omega : (0 : Int) ≤ k - 1),
      addDaysNat_in_month (base.year + 1) 0 (k - 1).toNat hdd]
    simp only [sameMonth, Bool.and_eq_false_iff, beq_eq_false_iff_ne, ne_eq]
    right
    omega

/-- The three segments of the generated grid, with the month-start weekday and
month length made explicit. -/
theorem generateCalendar_eq (base : Date) (hm0 : 0 ≤ base.month)
    (hm : base.month < 12) :
    generateCalendar base =
      ((List.range (getDay ⟨base.year, base.month, 1⟩).toNat).map
        (fun i : Nat => mkDate base.year base.month
          ((i : Int) - getDay ⟨base.year, base.month, 1⟩ + 1))
      ++ (List.range (daysInMonth base.year base.month).toNat).map
        (fun d : Nat => mkDate base.year base.month ((d : Int) + 1)))
      ++ (List.range (42 - ((getDay ⟨base.year, base.month, 1⟩).toNat
            + (daysInMonth base.year base.month).toNat))).map
        (fun i : Nat => mkDate base.year (base.month + 1) ((i : Int) + 1)) := by
  have hdim := daysInMonth_bounds base.year base.month
  have hstart : mkDate base.year base.month 1 = ⟨base.year, base.month, 1⟩ :=
    mkDate_in_month base.year base.month 1 hm0 hm le_rfl (by omega)
  have hend : mkDate base.year (base.month + 1) 0 =
      ⟨base.year, base.month, daysInMonth base.year base.month⟩ :=
    mkDate_month_end base.year base.month hm0 hm
  simp only [generateCalendar, hstart, hend]
  rw [List.length_append, List.length_map, List.length_map, List.length_range,
    List.length_range]

/-! ### Claim theorems -/

/-- Claim C3: for every reference date (with a normalized month field), the
calendar generator emits exactly 42 cells; the cells of the target month are
precisely its days 1..n in ascending date order; a cell satisfies the
`sameMonth` marker used by the renderer iff it is one of those days, so
out-of-month cells are distinguishable; and when the first of the month is a
Sunday no leading padding cell precedes the first target-month cell. -/
theorem c3_calendar_grid (base : Date) (hm0 : 0 ≤ base.month)
    (hm : base.month < 12) :
    (generateCalendar base).length = 42
    ∧ (generateCalendar base).filter (fun d => sameMonth d base) =
        (List.range (daysInMonth base.year base.month).toNat).map
          (fun k : Nat => ⟨base.year, base.month, (k : Int) + 1⟩)
    ∧ ((generateCalendar base).filter (fun d => sameMonth d base)).Pairwise
        (fun a b => dateBefore a b = true)
    ∧ (getDay ⟨base.year, base.month, 1⟩ = 0 →
        (generateCalendar base).takeWhile (fun d => !(sameMonth d base)) = []) := by
  have hdim := daysInMonth_bounds base.year base.month
  have hgd := getDay_bounds ⟨base.year, base.month, 1⟩
  have hcal := generateCalendar_eq base hm0 hm
  have hlead : ((List.range (getDay ⟨base.year, base.month, 1⟩).toNat).map
      (fun i : Nat => mkDate base.year base.month
        ((i : Int) - getDay ⟨base.year, base.month, 1⟩ + 1))).filter
      (fun d => sameMonth d base) = [] := by
    rw [List.filter_eq_nil_iff]
    intro a ha
    rw [List.mem_map] at ha
    obtain ⟨i, hi, rfl⟩ := ha
    rw [List.mem_range] at hi
    have hi' : (i : Int) < getDay ⟨base.year, base.month, 1⟩ := by omega
    have h1 : (i : Int) - getDay ⟨base.year, base.month, 1⟩ + 1 =
        1 - (getDay ⟨base.year, base.month, 1⟩ - (i : Int)) := by ring
    rw [h1, mkDate_lead_not_same base (getDay ⟨base.year, base.month, 1⟩ - (i : Int))
      hm0 hm (by omega) (by omega)]
    simp
  have hmid : (List.range (daysInMonth base.year base.month).toNat).map
      (fun d : Nat => mkDate base.year base.month ((d : Int) + 1)) =
      (List.range (daysInMonth base.year base.month).toNat).map
      (fun k : Nat => (⟨base.year, base.month, (k : Int) + 1⟩ : Date)) := by
    apply List.map_congr_left
    intro a ha
    rw [List.mem_range] at ha
    exact mkDate_in_month base.year base.month ((a : Int) + 1) hm0 hm (by omega)
      (by omega)
  have hmidf : ((List.range (daysInMonth base.year base.month).toNat).map
      (fun k : Nat => (⟨base.year, base.month, (k : Int) + 1⟩ : Date))).filter
      (fun d => sameMonth d base) =
      (List.range (daysInMonth base.year base.month).toNat).map
      (fun k : Nat => (⟨base.year, base.month, (k : Int) + 1⟩ : Date)) := by
    rw [List.filter_eq_self]
    intro a ha
    rw [List.mem_map] at ha
    obtain ⟨k, _, rfl⟩ := ha
    simp [sameMonth]
  have htrail : ((List.range (42 - ((getDay ⟨base.year, base.month, 1⟩).toNat
      + (daysInMonth base.year base.month).toNat))).map
      (fun i : Nat => mkDate base.year (base.month + 1) ((i : Int) + 1))).filter
      (fun d => sameMonth d base) = [] := by
    rw [List.filter_eq_nil_iff]
    intro a ha
    rw [List.mem_map] at ha
    obtain ⟨i, hi, rfl⟩ := ha
    rw [List.mem_range] at hi
    have hi' : (i : Int) + 1 ≤ 28 := by omega
    rw [mkDate_trail_not_same base ((i : Int) + 1) hm0 hm (by omega) hi']
    simp
  have hfilter : (generateCalendar base).filter (fun d => sameMonth d base) =
      (List.range (daysInMonth base.year base.month).toNat).map
      (fun k : Nat => (⟨base.year, base.month, (k : Int) + 1⟩ : Date)) := by
    rw [hcal, List.filter_append, List.filter_append, hlead, hmid, hmidf, htrail]
    simp
  refine ⟨?_, hfilter, ?_, ?_⟩
  · rw [hcal]
    simp only [List.length_append, List.length_map, List.length_range]
    omega
  · rw [hfilter, List.pairwise_map]
    apply List.Pairwise.imp ?_ (List.pairwise_lt_range _)
    intro a b hab
    simp only [dateBefore, toSerial, decide_eq_true_eq]
    omega
  · intro h0
    rw [hcal, h0]
    simp only [Int.toNat_zero, List.range_zero, List.map_nil, List.nil_append]
    obtain ⟨t, ht⟩ : ∃ t, (daysInMonth base.year base.month).toNat = t + 1 :=
      ⟨(daysInMonth base.year base.month).toNat - 1, by omega⟩
    rw [ht, List.range_succ_eq_map, List.map_cons, List.cons_append,
      List.takeWhile_cons_of_neg]
    rw [mkDate_in_month base.year base.month (((0 : Nat) : Int) + 1) hm0 hm
      (by omega) (by omega)]
    simp [sameMonth]

/-- Witness for C3 at June 2025 (whose first day is a Sunday): 42 cells, the
June days in order, and no leading padding. -/
theorem c3_calendar_grid_witness :
    (generateCalendar ⟨2025, 5, 1⟩).length = 42
    ∧ (generateCalendar ⟨2025, 5, 1⟩).filter (fun d => sameMonth d ⟨2025, 5, 1⟩) =
        (List.range (daysInMonth 2025 5).toNat).map
          (fun k : Nat => ⟨2025, 5, (k : Int) + 1⟩)
    ∧ ((generateCalendar ⟨2025, 5, 1⟩).filter
        (fun d => sameMonth d ⟨2025, 5, 1⟩)).Pairwise
        (fun a b => dateBefore a b = true)
    ∧ (generateCalendar ⟨2025, 5, 1⟩).takeWhile
        (fun d => !(sameMonth d ⟨2025, 5, 1⟩)) = [] := by
  have h := c3_calendar_grid ⟨2025, 5, 1⟩ (by decide) (by decide)
  exact ⟨h.1, h.2.1, h.2.2.1, h.2.2.2 (by decide)⟩

/-- Claim C6: the normalizer prefers the document-style identifier, falls back
to the legacy numeric id when the document id is absent, and always retains
the legacy id in the separate `strapiId` field. -/
theorem c6_canonical_id (raw : RawBooking) (n : Nat) (s : String) :
    (normalizeBooking raw).strapiId = raw.id
    ∧ (raw.documentId = none → raw.id = some n →
        (normalizeBooking raw).id = some (.numId n))
    ∧ (raw.documentId = some s → s ≠ "" →
        (normalizeBooking raw).id = some (.docId s)) := by
  refine ⟨rfl, ?_, ?_⟩
  · intro hdoc hid
    simp [normalizeBooking, idOr, hdoc, hid, strTruthy]
  · intro hdoc hs
    simp [normalizeBooking, idOr, hdoc, strTruthy, hs]

/-- Witness for C6 at concrete records: legacy-only record keeps the numeric
id; a record with both ids uses the document id; both retain `strapiId`. -/
theorem c6_canonical_id_witness :
    (normalizeBooking ⟨none, some 7, none, none, none, none, none, none, none⟩).id
        = some (.numId 7)
    ∧ (normalizeBooking ⟨some "doc9", some 7, none, none, none, none, none, none,
        none⟩).id = some (.docId "doc9")
    ∧ (normalizeBooking ⟨some "doc9", some 7, none, none, none, none, none, none,
        none⟩).strapiId = some 7 :=
  ⟨(c6_canonical_id ⟨none, some 7, none, none, none, none, none, none, none⟩ 7
      "doc9").2.1 rfl rfl,
   (c6_canonical_id ⟨some "doc9", some 7, none, none, none, none, none, none, none⟩
      7 "doc9").2.2 rfl (by decide),
   (c6_canonical_id ⟨some "doc9", some 7, none, none, none, none, none, none, none⟩
      7 "doc9").1⟩

/-- Counterexample for C4: a raw record whose booking-specific status is
absent but whose generic `status` field is `"cancelled"` normalizes to an
absent canonical status — the claimed fallback to the generic field and the
`'confirmed'` default do not happen in the normalizer. -/
theorem c4_status_counterexample :
    (normalizeBooking ⟨none, some 7, some "u@x.com", none, none, some 100, none,
        some "cancelled", none⟩).status ≠ some "cancelled"
    ∧ (normalizeBooking ⟨none, some 7, some "u@x.com", none, none, some 100, none,
        none, none⟩).status ≠ some "confirmed" := by
  decide

/-- Claim C4 (amended): the normalizer copies the booking-specific
`bookingStatus` field into both status fields of the canonical record, with no
fallback to the generic `status` field and no default; the `'confirmed'`
default is applied downstream by the tab filters' effective status, and the
status-badge helper instead defaults to `'pending'`. -/
theorem c4_status_normalization (raw : RawBooking) :
    (normalizeBooking raw).status = raw.bookingStatus
    ∧ (normalizeBooking raw).bookingStatus = raw.bookingStatus
    ∧ effStatus (normalizeBooking raw) = jsStrOrD raw.bookingStatus "confirmed"
    ∧ badgeStatus (normalizeBooking raw) = jsStrOrD raw.bookingStatus "pending" := by
  refine ⟨rfl, rfl, ?_, ?_⟩ <;>
  · rcases h : raw.bookingStatus with _ | s
    · simp [effStatus, badgeStatus, normalizeBooking, jsStrOr, jsStrOrD, h, strTruthy]
    · rcases eq_or_ne s "" with rfl | hs
      · simp [effStatus, badgeStatus, normalizeBooking, jsStrOr, jsStrOrD, h,
          strTruthy]
      · simp [effStatus, badgeStatus, normalizeBooking, jsStrOr, jsStrOrD, h,
          strTruthy, hs]

/-- Claim C5: image resolution returns an absolute URL string unchanged,
prefixes a relative path with the configured base URL, tries the four sources
in order (direct string, `url`, `data.attributes.url`, `attributes.url`), and
returns the fixed placeholder when nothing resolves (including a null input). -/
theorem c5_image_url (base fb s : String) (o : ImgObj) :
    (jsStartsWith s "http" = true → getImageUrl base (.strVal s) fb = s)
    ∧ (s ≠ "" → jsStartsWith s "http" = false →
        getImageUrl base (.strVal s) fb = base ++ s)
    ∧ (strTruthy o.url = true → objImageUrl o = o.url)
    ∧ (strTruthy o.url = false → strTruthy (dataAttrUrl o) = true →
        objImageUrl o = dataAttrUrl o)
    ∧ (strTruthy o.url = false → strTruthy (dataAttrUrl o) = false →
        strTruthy (attrUrl o) = true → objImageUrl o = attrUrl o)
    ∧ (objImageUrl o = none →
        getImageUrl base (.objVal o) placeholderUrl = placeholderUrl)
    ∧ getImageUrl base .nullVal placeholderUrl = placeholderUrl := by
  refine ⟨?_, ?_, ?_, ?_, ?_, ?_, rfl⟩
  · intro h
    have hs : s ≠ "" := by
      rintro rfl
      exact absurd h (by decide)
    simp [getImageUrl, hs, h]
  · intro hs h
    simp [getImageUrl, hs, h]
  · intro h
    simp [objImageUrl, h]
  · intro h1 h2
    simp [objImageUrl, h1, h2]
  · intro h1 h2 h3
    simp [objImageUrl, h1, h2, h3]
  · intro h
    simp [getImageUrl, h]

/-- Witness for C5 at concrete inputs: the spec's own examples. -/
theorem c5_image_url_witness :
    getImageUrl STRAPI_URL (.strVal "https://x/y.png") placeholderUrl
      = "https://x/y.png"
    ∧ getImageUrl STRAPI_URL (.strVal "/uploads/a.png") placeholderUrl
      = "http://localhost:1337/uploads/a.png"
    ∧ objImageUrl ⟨none, some ⟨some ⟨some "/up/b.png"⟩⟩, some ⟨some "/up/c.png"⟩⟩
      = some "/up/b.png"
    ∧ getImageUrl STRAPI_URL (.objVal ⟨none, none, none⟩) placeholderUrl
      = placeholderUrl :=
  ⟨(c5_image_url STRAPI_URL placeholderUrl "https://x/y.png"
      ⟨none, none, none⟩).1 (by decide),
   (c5_image_url STRAPI_URL placeholderUrl "/uploads/a.png"
      ⟨none, none, none⟩).2.1 (by decide) (by decide),
   (c5_image_url STRAPI_URL placeholderUrl ""
      ⟨none, some ⟨some ⟨some "/up/b.png"⟩⟩, some ⟨some "/up/c.png"⟩⟩).2.2.2.1
      (by decide) (by decide),
   (c5_image_url STRAPI_URL placeholderUrl "" ⟨none, none, none⟩).2.2.2.2.2.1
      (by decide)⟩

/-- Claim C7: a booking strictly after `now` whose effective status is not
`'cancelled'` lands in the upcoming set and not in the past set; a
`'cancelled'` booking lands in the past set regardless of its instant. -/
theorem c7_tab_partition (now : Int) (bookings : List NormalizedBooking)
    (b : NormalizedBooking) (hmem : b ∈ bookings) :
    (∀ t : Int, bookingInstant b = some t → now < t → effStatus b ≠ "cancelled" →
      b ∈ upcomingBookings now bookings ∧ b ∉ pastBookings now bookings)
    ∧ (effStatus b = "cancelled" → b ∈ pastBookings now bookings) := by
  constructor
  · intro t hinst hlt hstat
    constructor
    · refine List.mem_filter.mpr ⟨hmem, ?_⟩
      simp [instantIsAfterNow, hinst, hlt, hstat]
    · intro hpast
      have := (List.mem_filter.mp hpast).2
      simp [instantIsBeforeNow, hinst, hstat] at this
      omega
  · intro hstat
    refine List.mem_filter.mpr ⟨hmem, ?_⟩
    simp [hstat]



/-- Witness for C7: a future confirmed booking is upcoming-only; a cancelled
future booking is in the past set. -/
theorem c7_tab_partition_witness :
    c7FutureBooking ∈ upcomingBookings 0 [c7FutureBooking]
    ∧ c7FutureBooking ∉ pastBookings 0 [c7FutureBooking]
    ∧ c7CancelledBooking ∈ pastBookings 0 [c7CancelledBooking] := by
  refine ⟨?_, ?_, ?_⟩
  · exact ((c7_tab_partition 0 [c7FutureBooking] c7FutureBooking
      (by simp)).1 5 (by decide) (by decide) (by decide)).1
  · exact ((c7_tab_partition 0 [c7FutureBooking] c7FutureBooking
      (by simp)).1 5 (by decide) (by decide) (by decide)).2
  · exact (c7_tab_partition 0 [c7CancelledBooking] c7CancelledBooking
      (by simp)).2 (by decide)

/-- Claim C10: a non-cancelled booking scheduled exactly at the current
instant is excluded from both tabs — the two filters are not an exhaustive
partition. -/
theorem c10_boundary_excluded (now : Int) (bookings : List NormalizedBooking)
    (b : NormalizedBooking) (hinst : bookingInstant b = some now)
    (hstat : effStatus b ≠ "cancelled") :
    b ∉ upcomingBookings now bookings ∧ b ∉ pastBookings now bookings := by
  constructor
  · intro hmem
    have := (List.mem_filter.mp hmem).2
    simp [instantIsAfterNow, hinst] at this
  · intro hmem
    have := (List.mem_filter.mp hmem).2
    simp [instantIsBeforeNow, hinst, hstat] at this


/-- Witness for C10: a confirmed booking at exactly `now` is in neither tab
even though it is in the fetched list. -/
theorem c10_boundary_excluded_witness :
    c10BoundaryBooking ∉ upcomingBookings 0 [c10BoundaryBooking]
    ∧ c10BoundaryBooking ∉ pastBookings 0 [c10BoundaryBooking] :=
  c10_boundary_excluded 0 [c10BoundaryBooking] c10BoundaryBooking (by decide)
    (by decide)

/-- Claim C9: a calendar cell is disabled exactly when its date is strictly
before today's midnight or it lies outside the displayed month, and clicking
a disabled cell leaves the selection unchanged. -/
theorem c9_disabled_cells (viewMonth todayMidnight d : Date)
    (selected : Option Date) :
    (cellDisabled viewMonth todayMidnight d = true ↔
      (dateBefore d todayMidnight = true ∨ sameMonth d viewMonth = false))
    ∧ (cellDisabled viewMonth todayMidnight d = true →
        clickCell viewMonth todayMidnight selected d = selected) := by
  constructor
  · simp [cellDisabled, isDateDisabled]
    tauto
  · intro h
    simp [clickCell, h]

/-- Witness for C9: a past cell of the displayed month is disabled and
clicking it keeps the previous selection. -/
theorem c9_disabled_cells_witness :
    cellDisabled ⟨2025, 9, 1⟩ ⟨2025, 9, 11⟩ ⟨2025, 9, 5⟩ = true
    ∧ clickCell ⟨2025, 9, 1⟩ ⟨2025, 9, 11⟩ (some ⟨2025, 9, 20⟩) ⟨2025, 9, 5⟩
      = some ⟨2025, 9, 20⟩ :=
  ⟨(c9_disabled_cells ⟨2025, 9, 1⟩ ⟨2025, 9, 11⟩ ⟨2025, 9, 5⟩
      (some ⟨2025, 9, 20⟩)).1.mpr (Or.inl (by decide)),
   (c9_disabled_cells ⟨2025, 9, 1⟩ ⟨2025, 9, 11⟩ ⟨2025, 9, 5⟩
      (some ⟨2025, 9, 20⟩)).2 ((c9_disabled_cells ⟨2025, 9, 1⟩ ⟨2025, 9, 11⟩
      ⟨2025, 9, 5⟩ (some ⟨2025, 9, 20⟩)).1.mpr (Or.inl (by decide)))⟩

/-- Claim C8: with a date and the `"2:00 PM"` slot selected and a signed-in
user with a valid email, `onBook` calls `createBooking` exactly once, with a
payload holding exactly the service reference, the trimmed requester email,
the selected date combined with 14:00 local time converted to an absolute
instant, and status `'confirmed'`. -/
theorem c8_create_payload (svc : Service) (email : String) (d : Date) (tz : Int)
    (h1 : email ≠ "") (h2 : email.toList.contains '@' = true) :
    slotToMinutes "2:00 PM" = some 840
    ∧ onBook svc (some email) (some d) (some "2:00 PM") tz =
      [{ service := idOr svc.documentId svc.id,
         userEmail := jsTrim email,
         scheduleTime := localToAbsolute d 840 tz,
         bookingStatus := "confirmed" }] := by
  constructor
  · rfl
  · simp only [onBook]
    rw [if_neg]
    · rfl
    · have h2' : '@' ∈ email.data := by simpa using h2
      simp [h1, h2']

/-- Witness for C8: a concrete booking of the 15th of a displayed month at
2:00 PM, for a user in a zone 300 minutes behind UTC. -/
theorem c8_create_payload_witness :
    onBook ⟨some "svc1", some 3, some "Haircut", some 30, some 25⟩
        (some "user@mail.com") (some ⟨2026, 2, 15⟩) (some "2:00 PM") 300 =
      [{ service := some (.docId "svc1"),
         userEmail := "user@mail.com",
         scheduleTime := localToAbsolute ⟨2026, 2, 15⟩ 840 300,
         bookingStatus := "confirmed" }] := by
  have h := (c8_create_payload ⟨some "svc1", some 3, some "Haircut", some 30,
    some 25⟩ "user@mail.com" ⟨2026, 2, 15⟩ 300 (by decide) (by decide)).2
  rw [h]
  have hid : idOr (some "svc1") (some 3) = some (.docId "svc1") := by decide
  have htrim : jsTrim "user@mail.com" = "user@mail.com" := by decide
  simp [hid, htrim]

/-- Claim C2, evaluated on the code: when both probe fetches fail at the
network level, `checkBookingExists` returns `{exists: false, booking: null}`,
not the `{exists: true, booking: null}` the claim (and the function's own
`assume booking might exist to be safe` comment) describes — each phase's
inner `catch` only logs, so no error ever reaches the outer handler.  A clean
not-found through both phases does return `{exists: false, booking: null}` as
claimed. -/
theorem c2_network_failure_evaluation :
    checkBookingExists (.netErr "Failed to fetch") (.netErr "Failed to fetch")
      = ⟨false, none⟩
    ∧ checkBookingExists (.resp 404 none) (.resp 200 []) = ⟨false, none⟩ := by
  decide

/-- Claim C1: the cancel flow after the identifier-resolution phase has
located a record.  (1) A successful DELETE reports success without consulting
the PUT outcome; (2) a non-404 DELETE failure followed by a successful PUT
reports success; (3) a non-404 DELETE failure followed by a 404 PUT failure
reports success (inferred prior deletion); (4) two non-404 failures make the
operation fail; and a failure that is not a not-found error can only arise
when both steps failed with errors that are neither 404/not-found nor
already-deleted. -/
theorem c1_cancel_flow (ident : String) (r1 : Fetch (Option RawBooking))
    (r2 : Fetch (List RawBooking)) (b : RawBooking) (aid : Option JsId)
    (hres : resolveBookingId ident r1 r2 = .ok (some (b, aid)))
    (hid : idTruthy aid = true) :
    (∀ sd : Nat, respOk sd = true → ∀ put : Fetch Unit,
      cancelBooking ident r1 r2 (.resp sd ()) put = .ok .deleted)
    ∧ (∀ sd sp : Nat, respOk sd = false → sd ≠ 404 → respOk sp = true →
      cancelBooking ident r1 r2 (.resp sd ()) (.resp sp ()) = .ok .statusUpdated)
    ∧ (∀ sd : Nat, respOk sd = false → sd ≠ 404 →
      cancelBooking ident r1 r2 (.resp sd ()) (.resp 404 ()) = .ok .inferredSuccess)
    ∧ (∀ sd sp : Nat, respOk sd = false → sd ≠ 404 → respOk sp = false → sp ≠ 404 →
      cancelBooking ident r1 r2 (.resp sd ()) (.resp sp ()) = .error (.putFailed sp))
    ∧ (∀ (del put : Fetch Unit) (e : ErrMsg),
        cancelBooking ident r1 r2 del put = .error e → msgHasNotFound e = false →
        (∃ m1, deleteAttempt del = .error m1 ∧ msgHasNotFound m1 = false
          ∧ msgHasAlreadyDeleted m1 = false)
        ∧ (∃ m2, putAttempt put = .error m2 ∧ msgHasNotFound m2 = false
          ∧ msgHasAlreadyDeleted m2 = false)) := by
  have hrun : ∀ del put, cancelBooking ident r1 r2 del put = runCancelMethods del put := by
    intro del put
    simp [cancelBooking, hres, hid]
  refine ⟨?_, ?_, ?_, ?_, ?_⟩
  · intro sd hsd put
    rw [hrun]
    simp [runCancelMethods, deleteAttempt, hsd]
  · intro sd sp hsd hsd404 hsp
    rw [hrun]
    simp [runCancelMethods, deleteAttempt, putAttempt, hsd, hsd404, hsp,
      msgHasAlreadyDeleted, msgHasNotFound]
  · intro sd hsd hsd404
    rw [hrun]
    have h404 : respOk 404 = false := by decide
    simp [runCancelMethods, deleteAttempt, putAttempt, hsd, hsd404, h404,
      msgHasAlreadyDeleted, msgHasNotFound]
  · intro sd sp hsd hsd404 hsp hsp404
    rw [hrun]
    simp [runCancelMethods, deleteAttempt, putAttempt, hsd, hsd404, hsp, hsp404,
      msgHasAlreadyDeleted, msgHasNotFound]
  · intro del put e herr hnf
    rw [hrun] at herr
    unfold runCancelMethods at herr
    split at herr
    · simp at herr
    · rename_i m1 hdel
      by_cases had1 : msgHasAlreadyDeleted m1 = true
      · rw [if_pos had1] at herr
        simp at herr
      · rw [if_neg had1] at herr
        by_cases hnf1 : msgHasNotFound m1 = true
        · rw [if_pos hnf1] at herr
          injection herr with h
          subst h
          exact absurd hnf1 (by simp [hnf])
        · rw [if_neg hnf1] at herr
          refine ⟨⟨m1, hdel, by simpa using hnf1, by simpa using had1⟩, ?_⟩
          split at herr
          · simp at herr
          · rename_i m2 hput
            by_cases had2 : msgHasAlreadyDeleted m2 = true
            · rw [if_pos had2] at herr
              simp at herr
            · rw [if_neg had2] at herr
              by_cases hnf2 : msgHasNotFound m2 = true
              · rw [if_pos hnf2] at herr
                simp at herr
              · rw [if_neg hnf2] at herr
                injection herr with h
                subst h
                exact ⟨m2, hput, by simpa using hnf2, by simpa using had2⟩


/-- Witness for C1 at a concrete resolved booking: DELETE 200 succeeds
outright; DELETE 500 / PUT 200 succeeds via the status update; DELETE 500 /
PUT 404 succeeds by inference; DELETE 500 / PUT 503 fails. -/
theorem c1_cancel_flow_witness :
    cancelBooking "bk1" (.resp 200 (some c1ResolvedBooking)) (.netErr "x")
      (.resp 200 ()) (.netErr "y") = .ok .deleted
    ∧ cancelBooking "bk1" (.resp 200 (some c1ResolvedBooking)) (.netErr "x")
      (.resp 500 ()) (.resp 200 ()) = .ok .statusUpdated
    ∧ cancelBooking "bk1" (.resp 200 (some c1ResolvedBooking)) (.netErr "x")
      (.resp 500 ()) (.resp 404 ()) = .ok .inferredSuccess
    ∧ cancelBooking "bk1" (.resp 200 (some c1ResolvedBooking)) (.netErr "x")
      (.resp 500 ()) (.resp 503 ()) = .error (.putFailed 503) := by
  have h := c1_cancel_flow "bk1" (.resp 200 (some c1ResolvedBooking)) (.netErr "x")
    c1ResolvedBooking (some (.docId "bk1")) rfl rfl
  exact ⟨h.1 200 (by decide) (.netErr "y"),
    h.2.1 500 200 (by decide) (by decide) (by decide),
    h.2.2.1 500 (by decide) (by decide),
    h.2.2.2.1 500 503 (by decide) (by decide) (by decide) (by decide)⟩

end PetPal
